import Mathlib

/-!
Verification of the political-risk-tracker core: the score model
(`scripts/weekly-update.js`), the interactive update session of the same
script, and the monthly archival / change-log pipeline
(`scripts/monthly-archive.js`).  All definitions are shallow embeddings of
the JavaScript source: JavaScript numbers holding category scores are
modelled as integers, derived aggregates as rationals, and
`Math.round(x * 10) / 10` style rounding is carried out exactly on ℚ.
Strings are handled through character lists so that every operation is
kernel-computable.
-/

namespace Tracker

/-! ### Category and domain identifiers (from `CATEGORIES` / `DOMAINS`) -/

/-- The ten fixed category ids, in the order of the `CATEGORIES` array of
`scripts/weekly-update.js`. -/
inductive Cat where
  | elections
  | ruleOfLaw
  | nationalSecurity
  | regulatoryStability
  | tradePolicy
  | governmentContracts
  | fiscalPolicy
  | mediaFreedom
  | civilDiscourse
  | institutionalIntegrity
  deriving DecidableEq, Fintype, Repr

/-- The `CATEGORIES` array: all ten category ids in source order. -/
def CATEGORIES : List Cat :=
  [Cat.elections, Cat.ruleOfLaw, Cat.nationalSecurity, Cat.regulatoryStability,
   Cat.tradePolicy, Cat.governmentContracts, Cat.fiscalPolicy, Cat.mediaFreedom,
   Cat.civilDiscourse, Cat.institutionalIntegrity]

/-- The JSON string id of each category. -/
def catId : Cat → String
  | Cat.elections => "elections"
  | Cat.ruleOfLaw => "rule-of-law"
  | Cat.nationalSecurity => "national-security"
  | Cat.regulatoryStability => "regulatory-stability"
  | Cat.tradePolicy => "trade-policy"
  | Cat.governmentContracts => "government-contracts"
  | Cat.fiscalPolicy => "fiscal-policy"
  | Cat.mediaFreedom => "media-freedom"
  | Cat.civilDiscourse => "civil-discourse"
  | Cat.institutionalIntegrity => "institutional-integrity"

/-- The three fixed domain ids (`DOMAINS` keys). -/
inductive DomainId where
  | ruleOfLaw
  | operatingEconomic
  | societalInstitutional
  deriving DecidableEq, Fintype, Repr

/-- The `DOMAINS` constant: the hardcoded partition of the ten categories
into three domains. -/
def DOMAINS : DomainId → List Cat
  | DomainId.ruleOfLaw => [Cat.elections, Cat.ruleOfLaw, Cat.nationalSecurity]
  | DomainId.operatingEconomic =>
      [Cat.regulatoryStability, Cat.tradePolicy, Cat.governmentContracts, Cat.fiscalPolicy]
  | DomainId.societalInstitutional =>
      [Cat.mediaFreedom, Cat.civilDiscourse, Cat.institutionalIntegrity]

/-- Risk-level labels returned by `getRiskLevel`. -/
inductive RiskLevel where
  | low
  | moderate
  | elevated
  | high
  | severe
  deriving DecidableEq, Repr

/-! ### JavaScript-style rounding

`Math.round` in JavaScript rounds half toward positive infinity:
`Math.round(x) = floor(x + 0.5)` for every finite `x`. -/

/-- JavaScript `Math.round`, exactly on ℚ: the floor of `q + 1/2`,
computed through the numerator/denominator representation so that it is
kernel-reducible. -/
def jsRound (q : ℚ) : ℤ :=
  (q + 1 / 2).num / ((q + 1 / 2).den : ℤ)

theorem jsRound_eq_floor (q : ℚ) : jsRound q = ⌊q + 1 / 2⌋ :=
  Rat.floor_def.symm

theorem jsRound_eq_of (q : ℚ) (n : ℤ) (h1 : (n : ℚ) ≤ q + 1 / 2)
    (h2 : q + 1 / 2 < (n : ℚ) + 1) : jsRound q = n := by
  rw [jsRound_eq_floor, Int.floor_eq_iff]
  exact ⟨h1, by exact_mod_cast h2⟩

theorem jsRound_intCast (n : ℤ) : jsRound (n : ℚ) = n := by
  apply jsRound_eq_of <;> linarith

/-- `Math.round(q * 10) / 10`: round to one decimal place. -/
def round1 (q : ℚ) : ℚ := (jsRound (q * 10) : ℚ) / 10

/-- `Math.round(q * 100) / 100`: round to two decimal places. -/
def round2 (q : ℚ) : ℚ := (jsRound (q * 100) : ℚ) / 100

theorem round1_intCast (n : ℤ) : round1 ((n : ℚ) / 10) = (n : ℚ) / 10 := by
  unfold round1
  rw [div_mul_cancel₀ _ (by norm_num : (10 : ℚ) ≠ 0), jsRound_intCast]

/-! ### Score model (`calculateDomainScores`, `calculateOverallScore`,
`getRiskLevel` in `scripts/weekly-update.js`) -/

/-- One entry of `current.scores`: mirrors the `CategoryScore` record.
The JavaScript number holding a category score is always an integer, so it
is modelled as ℤ.  The trend is kept as a raw string, exactly as stored in
the JSON file. -/
structure CatScore where
  score : ℤ
  trend : String
  keyFindings : List String
  sources : List String
  lastUpdated : String
  deriving DecidableEq, Repr

/-- `calculateDomainScores(scores)`: for each domain, the sum of its
categories' scores divided by the number of categories, rounded with
`Math.round(x * 100) / 100`. -/
def calculateDomainScores (scores : Cat → CatScore) : DomainId → ℚ := fun domain =>
  let categories := DOMAINS domain
  let sum : ℚ := categories.foldl (fun acc cat => acc + ((scores cat).score : ℚ)) 0
  round2 (sum / (categories.length : ℚ))

/-- `calculateOverallScore(scores)`: the sum over all ten categories
divided by ten, rounded with `Math.round(x * 10) / 10`. -/
def calculateOverallScore (scores : Cat → CatScore) : ℚ :=
  let sum : ℚ := CATEGORIES.foldl (fun acc cat => acc + ((scores cat).score : ℚ)) 0
  round1 (sum / (CATEGORIES.length : ℚ))

/-- `getRiskLevel(score)`: the step function of the source. -/
def getRiskLevel (score : ℚ) : RiskLevel :=
  if score < 3 then RiskLevel.low
  else if score < 5 then RiskLevel.moderate
  else if score < 7 then RiskLevel.elevated
  else if score < 9 then RiskLevel.high
  else RiskLevel.severe

/-- Arithmetic mean of the ten category scores, written following the
spec's words ("arithmetic mean of all ten category scores"). -/
def overallMeanSpec (scores : Cat → CatScore) : ℚ :=
  ((CATEGORIES.map fun c => ((scores c).score : ℚ)).sum) / (CATEGORIES.length : ℚ)

/-- Arithmetic mean of a domain's category scores, written following the
spec's words ("arithmetic mean of the domain's fixed category scores"). -/
def domainMeanSpec (scores : Cat → CatScore) (d : DomainId) : ℚ :=
  (((DOMAINS d).map fun c => ((scores c).score : ℚ)).sum) / ((DOMAINS d).length : ℚ)

/-! ### String primitives

Core `String.toLower`, `String.trim` and string comparison are not
kernel-reducible, so the JavaScript string operations used by the scripts
are modelled directly on character lists.  The scripts only ever handle
ASCII operator input, so the ASCII fragments of `toLowerCase`, `trim` and
`parseInt` whitespace skipping are modelled. -/

/-- Whitespace recognised by JavaScript `trim` / `parseInt` (ASCII part). -/
def jsWhitespace (c : Char) : Bool :=
  c = ' ' || c = '\t' || c = '\n' || c = '\r' || c = '\x0b' || c = '\x0c'

/-- `String.prototype.toLowerCase` on one ASCII character. -/
def jsCharToLower (c : Char) : Char :=
  if 'A' ≤ c ∧ c ≤ 'Z' then Char.ofNat (c.toNat + 32) else c

/-- `String.prototype.toLowerCase` (ASCII fragment). -/
def jsToLower (s : String) : String :=
  String.mk (s.data.map jsCharToLower)

/-- `String.prototype.trim` (ASCII whitespace fragment). -/
def jsTrim (s : String) : String :=
  String.mk (((s.data.dropWhile jsWhitespace).reverse.dropWhile jsWhitespace).reverse)

/-- Lexicographic strict order on character lists, by code point: the
order JavaScript's default `Array.prototype.sort` uses on (ASCII)
strings. -/
def charListLt : List Char → List Char → Bool
  | [], [] => false
  | [], _ :: _ => true
  | _ :: _, [] => false
  | a :: as, b :: bs => if a < b then true else if b < a then false else charListLt as bs

/-- Insert a string into a lexicographically sorted list. -/
def insertSorted (x : String) : List String → List String
  | [] => [x]
  | y :: ys => if charListLt x.data y.data then x :: y :: ys else y :: insertSorted x ys

/-- `Array.prototype.sort()` on (distinct) strings: sort ascending. -/
def sortStrings (l : List String) : List String :=
  l.foldr insertSorted []

/-! ### JavaScript `parseInt` -/

/-- The value of one digit character in the given base (10 or 16), or
`none` if the character is not a digit of that base. -/
def digitValue (base : ℕ) (c : Char) : Option ℕ :=
  if '0' ≤ c ∧ c ≤ '9' then some (c.toNat - '0'.toNat)
  else if base = 16 ∧ 'a' ≤ c ∧ c ≤ 'f' then some (c.toNat - 'a'.toNat + 10)
  else if base = 16 ∧ 'A' ≤ c ∧ c ≤ 'F' then some (c.toNat - 'A'.toNat + 10)
  else none

/-- Accumulate a digit list into a natural number. -/
def digitsToNat (base : ℕ) : List Char → ℕ → ℕ
  | [], acc => acc
  | c :: cs, acc => digitsToNat base cs (acc * base + (digitValue base c).getD 0)

/-- JavaScript `parseInt(s)` with no radix argument: skip leading
whitespace, read an optional sign, detect a leading `0x` / `0X` (hex),
then read the longest run of digits of the selected base; `none` models a
`NaN` result (no digits). -/
def jsParseInt (s : String) : Option ℤ :=
  let cs := s.data.dropWhile jsWhitespace
  let signed : ℤ × List Char :=
    match cs with
    | '-' :: r => (-1, r)
    | '+' :: r => (1, r)
    | _ => (1, cs)
  let based : ℕ × List Char :=
    match signed.2 with
    | '0' :: 'x' :: r => (16, r)
    | '0' :: 'X' :: r => (16, r)
    | _ => (10, signed.2)
  let ds := based.2.takeWhile fun c => (digitValue based.1 c).isSome
  if ds.isEmpty then none
  else some (signed.1 * (digitsToNat based.1 ds 0 : ℤ))

/-! ### Interactive update session (`scripts/weekly-update.js`) -/

/-- `Math.max(1, Math.min(10, n))`. -/
def clampScore (n : ℤ) : ℤ := max 1 (min 10 n)

/-- The score-question step of `updateCategory`:
`if (newScore && !isNaN(parseInt(newScore)))` store the clamped parse,
otherwise keep the prior score. -/
def scoreStep (resp : String) (prior : ℤ) : ℤ :=
  if resp ≠ "" then
    match jsParseInt resp with
    | some n => clampScore n
    | none => prior
  else prior

/-- The `trendMap` object literal: keys are the single letters i, s, d. -/
def trendMapLookup (s : String) : Option String :=
  if s = "i" then some ("increasing")
  else if s = "s" then some ("stable")
  else if s = "d" then some ("decreasing")
  else none

/-- The trend-question step of `updateCategory`:
`trendMap[input.toLowerCase()] || trendMap[input.toLowerCase()[0]]`,
keeping the prior trend when both lookups miss or the response is
empty. -/
def trendStep (resp : String) (prior : String) : String :=
  if resp ≠ "" then
    let low := jsToLower resp
    match trendMapLookup low with
    | some t => t
    | none =>
      match low.data with
      | [] => prior
      | c :: _ =>
        match trendMapLookup (String.mk [c]) with
        | some t => t
        | none => prior
  else prior

/-- The findings / sources collection loops: read lines until one whose
trim is empty, collecting the trimmed lines; `none` models the script
blocking forever because the operator input ran out. -/
def collectLines : List String → Option (List String × List String)
  | [] => none
  | l :: rest =>
    if jsTrim l = "" then some ([], rest)
    else
      match collectLines rest with
      | some (ls, r) => some (jsTrim l :: ls, r)
      | none => none

/-- `updateCategory(rl, current, categoryId)`, as a function of the
operator's next responses.  Consumes the score response, the trend
response, the two y/N gate responses and the optional line loops, then
stamps `lastUpdated` with today's date. -/
def updateCategory (today : String) (cs : CatScore) :
    List String → Option (CatScore × List String)
  | [] => none
  | scoreResp :: rest1 =>
    let cs1 : CatScore := { cs with score := scoreStep scoreResp cs.score }
    match rest1 with
    | [] => none
    | trendResp :: rest2 =>
      let cs2 : CatScore := { cs1 with trend := trendStep trendResp cs1.trend }
      match rest2 with
      | [] => none
      | updFind :: rest3 =>
        let afterFindings : Option (CatScore × List String) :=
          if jsToLower updFind = "y" then
            match collectLines rest3 with
            | some (ls, r) =>
                some (if ls.isEmpty then cs2 else { cs2 with keyFindings := ls }, r)
            | none => none
          else some (cs2, rest3)
        match afterFindings with
        | none => none
        | some (cs3, rest4) =>
          match rest4 with
          | [] => none
          | updSrc :: rest5 =>
            let afterSources : Option (CatScore × List String) :=
              if jsToLower updSrc = "y" then
                match collectLines rest5 with
                | some (ls, r) =>
                    some (if ls.isEmpty then cs3 else { cs3 with sources := ls }, r)
                | none => none
              else some (cs3, rest5)
            match afterSources with
            | none => none
            | some (cs4, rest6) => some ({ cs4 with lastUpdated := today }, rest6)

/-- `selected.add(cat)` on a JavaScript `Set`: insertion-ordered,
deduplicated. -/
def addUnique (sel : List Cat) (c : Cat) : List Cat :=
  if c ∈ sel then sel else sel ++ [c]

/-- The selection loop of `selectCategories`: repeatedly read a response;
`q` finishes, `0` selects all categories and finishes, a number 1–10 adds
that category, anything else is ignored.  `none` models the script
blocking because input ran out. -/
def selectLoop : List String → List Cat → Option (List Cat × List String)
  | [], _ => none
  | input :: rest, sel =>
    if jsToLower input = "q" then some (sel, rest)
    else
      match jsParseInt input with
      | some n =>
        if n = 0 then some (CATEGORIES.foldl addUnique sel, rest)
        else if 1 ≤ n ∧ n ≤ (CATEGORIES.length : ℤ) then
          match CATEGORIES.get? (n - 1).toNat with
          | some c => selectLoop rest (addUnique sel c)
          | none => selectLoop rest sel
        else selectLoop rest sel
      | none => selectLoop rest sel

/-- Update every selected category in order, threading the operator's
responses. -/
def updateCats (today : String) :
    List Cat → (Cat → CatScore) → List String → Option ((Cat → CatScore) × List String)
  | [], scores, inp => some (scores, inp)
  | c :: cs, scores, inp =>
    match updateCategory today (scores c) inp with
    | none => none
    | some (s2, inp2) => updateCats today cs (Function.update scores c s2) inp2

/-- The persisted current assessment (`data/current.json`). -/
structure Current where
  assessmentDate : String
  assessmentPeriod : String
  scores : Cat → CatScore
  domainScores : DomainId → ℚ
  overallScore : ℚ
  riskLevel : RiskLevel
  deriving DecidableEq

/-- `main()` of `scripts/weekly-update.js`, as a function of the
operator's scripted responses.  The result is the final content of the
persisted store (`data/current.json`) together with the outcome of the
save prompt: `none` when the save prompt was never reached (empty
selection), `some true` when the edited state was written, `some false`
when the operator answered `n` and the store was left untouched.  An
`Option.none` result models the session blocking on exhausted input. -/
def runSession (today : String) (inp : List String) (persisted : Current) :
    Option (Current × Option Bool) :=
  match selectLoop inp [] with
  | none => none
  | some (sel, rest) =>
    if sel.isEmpty then some (persisted, none)
    else
      match updateCats today sel persisted.scores rest with
      | none => none
      | some (scores2, rest2) =>
        let overall := calculateOverallScore scores2
        let current2 : Current :=
          { persisted with
              scores := scores2
              domainScores := calculateDomainScores scores2
              overallScore := overall
              riskLevel := getRiskLevel overall
              assessmentDate := today }
        match rest2 with
        | [] => none
        | confirm :: _ =>
          if jsToLower confirm ≠ "n" then some (current2, some true)
          else some (persisted, some false)

/-! ### Monthly archive (`scripts/monthly-archive.js`) -/

/-- A persisted historical snapshot (`data/history/YYYY-MM-DD.json`). -/
structure Snapshot where
  date : String
  scores : Cat → ℤ
  domainScores : DomainId → ℚ
  overallScore : ℚ
  riskLevel : RiskLevel
  deriving DecidableEq

/-- One `{category, from, to, rationale}` entry of `categoryChanges`.
`from` is a Lean keyword, so the two score fields are named `fromScore`
and `toScore`. -/
structure CategoryChange where
  category : String
  fromScore : ℤ
  toScore : ℤ
  rationale : String
  deriving DecidableEq, Repr

/-- One entry of the persisted change-log collection
(`data/historical-changes.json`).  In the persisted JSON, `overallChange`
is nullable (the consumer checks `overallChange !== null`), hence
`Option ℚ` here; the generator itself always produces a number. -/
structure ChangeRecord where
  period : String
  date : String
  overallScore : ℚ
  overallChange : Option ℚ
  summary : String
  keyDevelopments : List String
  categoryChanges : List CategoryChange
  deriving DecidableEq

/-- The history directory `data/history`: a finite collection of
snapshot files keyed by their date string.  Directory order is arbitrary;
the script sorts the file names itself. -/
abbrev HistoryDir := List (String × Snapshot)

/-- `createHistorySnapshot(current, dateStr)`: keep the aggregates and
only the bare numeric score of each category. -/
def createHistorySnapshot (current : Current) (dateStr : String) : Snapshot :=
  { date := dateStr
    scores := fun c => (current.scores c).score
    domainScores := current.domainScores
    overallScore := current.overallScore
    riskLevel := current.riskLevel }

/-- `getPreviousMonthData()`: the last entry of the `changes` array of
`data/historical-changes.json`, or `null` when the array is empty. -/
def getPreviousMonthData (changes : List ChangeRecord) : Option ChangeRecord :=
  changes.getLast?

/-- `fs.readdirSync(HISTORY_DIR).sort()` followed by taking the last
file name: the lexicographically greatest snapshot key, if any. -/
def lastSnapshotFile (hist : HistoryDir) : Option String :=
  (sortStrings (hist.map Prod.fst)).getLast?

/-- `generateChangesTemplate(current, dateStr, monthYear)`.  `none`
models the uncaught exception thrown when `getPreviousMonthData` finds a
prior entry but the history directory is empty (reading an `undefined`
file name).  Note the two distinct baselines of the source: the overall
delta is taken against the last change-log entry, while the per-category
diff is taken against the lexicographically last file of the history
directory at the time the function runs. -/
def generateChangesTemplate (hist : HistoryDir) (changes : List ChangeRecord)
    (current : Current) (dateStr monthYear : String) : Option ChangeRecord :=
  let prevMonth := getPreviousMonthData changes
  let prevScore : ℚ :=
    match prevMonth with
    | some p => p.overallScore
    | none => current.overallScore
  let overallChange := round1 (current.overallScore - prevScore)
  let base : ChangeRecord :=
    { period := monthYear
      date := dateStr
      overallScore := current.overallScore
      overallChange := some overallChange
      summary := "UPDATE: Brief summary of key developments"
      keyDevelopments :=
        ["UPDATE: Key development 1", "UPDATE: Key development 2",
         "UPDATE: Key development 3"]
      categoryChanges := [] }
  match prevMonth with
  | none => some base
  | some _ =>
    match lastSnapshotFile hist with
    | none => none
    | some f =>
      match hist.lookup f with
      | none => none
      | some lastSnapshot =>
        let ccs := CATEGORIES.filterMap fun c =>
          let oldScore := lastSnapshot.scores c
          let newScore := (current.scores c).score
          if oldScore ≠ newScore then
            some { category := catId c
                   fromScore := oldScore
                   toScore := newScore
                   rationale :=
                     "UPDATE: Explain why " ++ catId c ++ " changed from " ++
                       toString oldScore ++ " to " ++ toString newScore }
          else none
        some { base with categoryChanges := ccs }

/-- Step 1 of `main()` in `scripts/monthly-archive.js`: write the new
snapshot file unless one for `dateStr` already exists.  The boolean is
`true` when the step was skipped (`[SKIP]` log line). -/
def archiveStep (hist : HistoryDir) (current : Current) (dateStr : String) :
    HistoryDir × Bool :=
  if (hist.lookup dateStr).isSome then (hist, true)
  else (hist ++ [(dateStr, createHistorySnapshot current dateStr)], false)

/-- The state-relevant part of `main()` in `scripts/monthly-archive.js`:
step 1 archives the current store, then step 3 generates the change-log
template against the post-step-1 history directory. -/
def monthlyMain (hist : HistoryDir) (changes : List ChangeRecord)
    (current : Current) (dateStr monthYear : String) :
    (HistoryDir × Bool) × Option ChangeRecord :=
  let step1 := archiveStep hist current dateStr
  (step1, generateChangesTemplate step1.1 changes current dateStr monthYear)

/-! ### Concrete sample states used by witnesses and counterexamples -/

/-- A baseline category entry with score 5. -/
def baseCatScore : CatScore :=
  { score := 5
    trend := "stable"
    keyFindings := ["finding"]
    sources := ["https://example.org"]
    lastUpdated := "2026-01-10" }

/-- A current assessment with every category at score 5. -/
def cur0 : Current :=
  { assessmentDate := "2026-02-01"
    assessmentPeriod := "February 2026"
    scores := fun _ => baseCatScore
    domainScores := fun _ => 5
    overallScore := 5
    riskLevel := RiskLevel.elevated }

/-- Scores with elections at 7 and everything else at 5. -/
def scores1 : Cat → CatScore := fun c =>
  if c = Cat.elections then { baseCatScore with score := 7 } else baseCatScore

/-- A current assessment whose elections score moved from 5 to 7. -/
def cur1 : Current :=
  { assessmentDate := "2026-02-18"
    assessmentPeriod := "February 2026"
    scores := scores1
    domainScores := fun _ => 5
    overallScore := 26 / 5
    riskLevel := RiskLevel.elevated }

/-- The January snapshot: every category at 5, overall 5. -/
def snapJan : Snapshot :=
  { date := "2026-01-20"
    scores := fun _ => 5
    domainScores := fun _ => 5
    overallScore := 5
    riskLevel := RiskLevel.elevated }

/-- The January change-log entry, consistent with `snapJan`. -/
def recJan : ChangeRecord :=
  { period := "January 2026"
    date := "2026-01-20"
    overallScore := 5
    overallChange := some 0
    summary := "January summary"
    keyDevelopments := ["dev"]
    categoryChanges := [] }

/-- A hand-edited change-log entry whose `overallScore` (6) disagrees
with the last archived snapshot's `overallScore` (5). -/
def recDrift : ChangeRecord :=
  { period := "January 2026"
    date := "2026-01-20"
    overallScore := 6
    overallChange := some 0
    summary := "January summary"
    keyDevelopments := ["dev"]
    categoryChanges := [] }

/-- A current assessment with overall score 5.5. -/
def cur2 : Current :=
  { assessmentDate := "2026-02-18"
    assessmentPeriod := "February 2026"
    scores := fun _ => baseCatScore
    domainScores := fun _ => 5
    overallScore := 11 / 2
    riskLevel := RiskLevel.elevated }

/-- A history directory holding only the January snapshot. -/
def histJan : HistoryDir := [("2026-01-20", snapJan)]

/-! ### Evaluation helpers for rounding -/

theorem round1_eval (q : ℚ) (n : ℤ) (h1 : (n : ℚ) ≤ q * 10 + 1 / 2)
    (h2 : q * 10 + 1 / 2 < (n : ℚ) + 1) : round1 q = (n : ℚ) / 10 := by
  unfold round1
  rw [jsRound_eq_of (q * 10) n h1 h2]

theorem round1_zero : round1 0 = 0 := by
  rw [round1_eval 0 0 (by norm_num) (by norm_num)]
  norm_num

/-! ### C4: overall score is the rounded mean and stays in bounds -/

/-- C4: for every valid scores mapping (each category score an integer in
[1,10]), `calculateOverallScore` equals the arithmetic mean of the ten
category scores rounded to one decimal place, and lies within [1,10]. -/
theorem c4_overall_score_is_rounded_mean (scores : Cat → CatScore)
    (h : ∀ c, 1 ≤ (scores c).score ∧ (scores c).score ≤ 10) :
    calculateOverallScore scores = round1 (overallMeanSpec scores) ∧
    1 ≤ calculateOverallScore scores ∧ calculateOverallScore scores ≤ 10 := by
  obtain ⟨e1, f1⟩ := h Cat.elections
  obtain ⟨e2, f2⟩ := h Cat.ruleOfLaw
  obtain ⟨e3, f3⟩ := h Cat.nationalSecurity
  obtain ⟨e4, f4⟩ := h Cat.regulatoryStability
  obtain ⟨e5, f5⟩ := h Cat.tradePolicy
  obtain ⟨e6, f6⟩ := h Cat.governmentContracts
  obtain ⟨e7, f7⟩ := h Cat.fiscalPolicy
  obtain ⟨e8, f8⟩ := h Cat.mediaFreedom
  obtain ⟨e9, f9⟩ := h Cat.civilDiscourse
  obtain ⟨e10, f10⟩ := h Cat.institutionalIntegrity
  set n : ℤ :=
    (scores Cat.elections).score + (scores Cat.ruleOfLaw).score +
      (scores Cat.nationalSecurity).score + (scores Cat.regulatoryStability).score +
      (scores Cat.tradePolicy).score + (scores Cat.governmentContracts).score +
      (scores Cat.fiscalPolicy).score + (scores Cat.mediaFreedom).score +
      (scores Cat.civilDiscourse).score + (scores Cat.institutionalIntegrity).score with hn
  have hsum :
      (CATEGORIES.foldl (fun acc cat => acc + ((scores cat).score : ℚ)) 0)
        = ((CATEGORIES.map fun c => ((scores c).score : ℚ)).sum) := by
    simp [CATEGORIES]
    ring
  have hS : ((CATEGORIES.map fun c => ((scores c).score : ℚ)).sum) = (n : ℚ) := by
    rw [hn]
    simp [CATEGORIES]
    ring
  have hcalc : calculateOverallScore scores = round1 (overallMeanSpec scores) := by
    unfold calculateOverallScore overallMeanSpec
    rw [hsum]
  have hlen : ((CATEGORIES.length : ℕ) : ℚ) = 10 := by norm_num [CATEGORIES]
  have hmean : overallMeanSpec scores = (n : ℚ) / 10 := by
    unfold overallMeanSpec
    rw [hS, hlen]
  have hlow : (10 : ℤ) ≤ n := by omega
  have hhigh : n ≤ 100 := by omega
  have hval : calculateOverallScore scores = (n : ℚ) / 10 := by
    rw [hcalc, hmean, round1_intCast]
  refine ⟨hcalc, ?_, ?_⟩
  · rw [hval, le_div_iff₀ (by norm_num : (0 : ℚ) < 10)]
    have : (10 : ℚ) ≤ (n : ℚ) := by exact_mod_cast hlow
    linarith
  · rw [hval, div_le_iff₀ (by norm_num : (0 : ℚ) < 10)]
    have : (n : ℚ) ≤ 100 := by exact_mod_cast hhigh
    linarith

/-- C4 witness: the all-fives assessment satisfies the hypothesis and the
bounds. -/
theorem c4_overall_score_witness :
    1 ≤ calculateOverallScore (fun _ => baseCatScore) :=
  (c4_overall_score_is_rounded_mean (fun _ => baseCatScore) (by decide)).2.1

/-! ### C5: domain scores are the rounded means of the fixed partition -/

/-- C5: for every scores mapping, each domain's score equals the
arithmetic mean of that domain's fixed category scores (per the hardcoded
three-domain partition) rounded to two decimal places. -/
theorem c5_domain_score_is_rounded_mean (scores : Cat → CatScore) (d : DomainId) :
    calculateDomainScores scores d = round2 (domainMeanSpec scores d) := by
  cases d <;>
    (unfold calculateDomainScores domainMeanSpec
     simp [DOMAINS]
     congr 1
     ring)

/-! ### C6: risk-level bins -/

/-- C6: on [1,10] the risk level follows the half-open bins
[1,3) low, [3,5) moderate, [5,7) elevated, [7,9) high, [9,10] severe,
with the boundary cases 2.9, 3.0, 8.9, 9.0 and 10. -/
theorem c6_risk_level_bins (s : ℚ) :
    ((1 ≤ s ∧ s < 3) → getRiskLevel s = RiskLevel.low) ∧
    ((3 ≤ s ∧ s < 5) → getRiskLevel s = RiskLevel.moderate) ∧
    ((5 ≤ s ∧ s < 7) → getRiskLevel s = RiskLevel.elevated) ∧
    ((7 ≤ s ∧ s < 9) → getRiskLevel s = RiskLevel.high) ∧
    ((9 ≤ s ∧ s ≤ 10) → getRiskLevel s = RiskLevel.severe) ∧
    getRiskLevel (29 / 10) = RiskLevel.low ∧
    getRiskLevel 3 = RiskLevel.moderate ∧
    getRiskLevel (89 / 10) = RiskLevel.high ∧
    getRiskLevel 9 = RiskLevel.severe ∧
    getRiskLevel 10 = RiskLevel.severe := by
  unfold getRiskLevel
  refine ⟨?_, ?_, ?_, ?_, ?_, ?_, ?_, ?_, ?_, ?_⟩ <;>
    first
      | (rintro ⟨ha, hb⟩
         split_ifs <;> first | rfl | linarith)
      | (split_ifs <;> first | rfl | linarith)

/-- C6 witness: the first bin applied at score 2. -/
theorem c6_risk_level_witness : getRiskLevel 2 = RiskLevel.low :=
  (c6_risk_level_bins 2).1 (by norm_num)

/-! ### C9: lenient score input -/

theorem jsParseInt_empty : jsParseInt "" = none := rfl

/-- C9: during a category edit, a parseable numeric response is clamped
to [1,10] and stored (below 1 becomes 1, above 10 becomes 10), while a
malformed (unparseable) or empty response leaves the prior score
unchanged, raising no error. -/
theorem c9_lenient_score_input (s : String) (n prior : ℤ) :
    (jsParseInt s = some n →
      scoreStep s prior = max 1 (min 10 n) ∧
      (n < 1 → scoreStep s prior = 1) ∧
      (10 < n → scoreStep s prior = 10)) ∧
    (jsParseInt s = none → scoreStep s prior = prior) ∧
    scoreStep "" prior = prior := by
  refine ⟨?_, ?_, rfl⟩
  · intro h
    have hs : s ≠ "" := by
      rintro rfl
      rw [jsParseInt_empty] at h
      cases h
    have hstep : scoreStep s prior = clampScore n := by
      unfold scoreStep
      rw [if_pos hs, h]
    unfold clampScore at hstep
    exact ⟨hstep, fun hlt => by rw [hstep]; omega, fun hgt => by rw [hstep]; omega⟩
  · intro h
    unfold scoreStep
    split_ifs with hs
    · rw [h]
    · rfl

/-- C9 witness: the out-of-range response 15 is clamped to 10. -/
theorem c9_lenient_score_witness : scoreStep "15" 3 = max 1 (min 10 15) :=
  ((c9_lenient_score_input "15" 15 3).1 (by decide)).1

/-! ### C10: truncating integer parse of the score response -/

/-- C10: whenever the JavaScript integer parse of the score response
succeeds with value n, the stored score is the clamp of n to [1,10]; in
particular the response 7.9 stores 7 (truncation, not rounding to 8) and
5abc stores 5. -/
theorem c10_parse_truncation (s : String) (n prior : ℤ)
    (h : jsParseInt s = some n) :
    scoreStep s prior = max 1 (min 10 n) ∧
    jsParseInt "7.9" = some 7 ∧
    jsParseInt "5abc" = some 5 ∧
    scoreStep "7.9" prior = 7 ∧
    scoreStep "5abc" prior = 5 := by
  refine ⟨?_, by decide, by decide, rfl, rfl⟩
  have hs : s ≠ "" := by
    rintro rfl
    rw [jsParseInt_empty] at h
    cases h
  unfold scoreStep
  rw [if_pos hs, h]
  rfl

/-- C10 witness: the response 7.9 parses to 7 and stores clamp(7) = 7. -/
theorem c10_parse_truncation_witness : scoreStep "7.9" 4 = max 1 (min 10 7) :=
  (c10_parse_truncation "7.9" 7 4 (by decide)).1

/-! ### C8: declining to save leaves the persisted store untouched -/

/-- C8: for every interactive session that reaches the save prompt and
whose operator declines (outcome `some false`), the persisted store is
returned unchanged: the session writes nothing. -/
theorem c8_discard_leaves_store (today : String) (inp : List String)
    (persisted fin : Current) (decision : Option Bool)
    (h : runSession today inp persisted = some (fin, decision))
    (hd : decision = some false) : fin = persisted := by
  subst hd
  unfold runSession at h
  rcases hsel : selectLoop inp [] with _ | ⟨sel, rest⟩ <;> rw [hsel] at h
  · cases h
  · simp only at h
    split_ifs at h with hemp
    · simp only [Option.some.injEq, Prod.mk.injEq] at h
      exact h.1.symm
    · rcases hupd : updateCats today sel persisted.scores rest with _ | ⟨scores2, rest2⟩ <;>
        rw [hupd] at h
      · cases h
      · simp only at h
        rcases rest2 with _ | ⟨confirm, rest3⟩
        · cases h
        · dsimp only at h
          split_ifs at h with hc
          · simp only [Option.some.injEq, Prod.mk.injEq] at h
            cases h.2
          · simp only [Option.some.injEq, Prod.mk.injEq] at h
            exact h.1.symm

/-- C8 witness: a session that edits the elections score to 7 and then
answers `n` at the save prompt returns the untouched store. -/
theorem c8_discard_witness : cur0 = cur0 :=
  c8_discard_leaves_store "2026-02-18" ["1", "q", "7", "", "", "", "n"] cur0 cur0
    (some false) (by decide) rfl

/-! ### C7: archival is idempotent per date -/

theorem lookup_cons_ne (k d : String) (v : Snapshot) (t : HistoryDir)
    (hdk : d ≠ k) : ((k, v) :: t).lookup d = t.lookup d := by
  have hstep : ((k, v) :: t).lookup d =
      match d == k with
      | true => some v
      | false => t.lookup d := rfl
  rw [hstep, beq_eq_false_iff_ne.mpr hdk]

theorem lookup_append_single (hist : HistoryDir) (d : String) (s : Snapshot)
    (h : hist.lookup d = none) : (hist ++ [(d, s)]).lookup d = some s := by
  induction hist with
  | nil => simp [List.lookup]
  | cons kv t ih =>
    obtain ⟨k, v⟩ := kv
    by_cases hdk : d = k
    · subst hdk
      simp [List.lookup] at h
    · rw [List.cons_append, lookup_cons_ne k d v _ hdk]
      rw [lookup_cons_ne k d v t hdk] at h
      exact ih h

theorem keys_count_zero (hist : HistoryDir) (d : String)
    (h : hist.lookup d = none) : (hist.map Prod.fst).count d = 0 := by
  induction hist with
  | nil => simp
  | cons kv t ih =>
    obtain ⟨k, v⟩ := kv
    by_cases hdk : d = k
    · subst hdk
      simp [List.lookup] at h
    · rw [lookup_cons_ne k d v t hdk] at h
      simp [List.count_cons, ih h, Ne.symm hdk]

/-- C7: archiving twice with the same `periodDate` leaves exactly one
snapshot for that date in the history directory, the snapshot written by
the first invocation is unchanged, and the second invocation reports a
skip (it neither raises nor overwrites). -/
theorem c7_archive_idempotent (hist : HistoryDir) (cur cur2 : Current) (d : String)
    (h : hist.lookup d = none) :
    (archiveStep (archiveStep hist cur d).1 cur2 d).2 = true ∧
    (archiveStep (archiveStep hist cur d).1 cur2 d).1 = (archiveStep hist cur d).1 ∧
    (archiveStep hist cur d).1.lookup d = some (createHistorySnapshot cur d) ∧
    ((archiveStep (archiveStep hist cur d).1 cur2 d).1.map Prod.fst).count d = 1 := by
  have h1 : archiveStep hist cur d = (hist ++ [(d, createHistorySnapshot cur d)], false) := by
    unfold archiveStep
    rw [h]
    rfl
  have h2 : (hist ++ [(d, createHistorySnapshot cur d)]).lookup d
      = some (createHistorySnapshot cur d) :=
    lookup_append_single hist d _ h
  have h3 : archiveStep (hist ++ [(d, createHistorySnapshot cur d)]) cur2 d
      = (hist ++ [(d, createHistorySnapshot cur d)], true) := by
    unfold archiveStep
    rw [h2]
    rfl
  have h4 : ((hist ++ [(d, createHistorySnapshot cur d)]).map Prod.fst).count d = 1 := by
    rw [List.map_append, List.count_append, keys_count_zero hist d h]
    simp
  rw [h1]
  rw [h3]
  exact ⟨rfl, rfl, h2, h4⟩

/-- C7 witness: archiving an empty history twice for 2026-02-20. -/
theorem c7_archive_idempotent_witness :
    (archiveStep (archiveStep [] cur0 "2026-02-20").1 cur0 "2026-02-20").2 = true ∧
    (archiveStep (archiveStep [] cur0 "2026-02-20").1 cur0 "2026-02-20").1
      = (archiveStep [] cur0 "2026-02-20").1 ∧
    (archiveStep [] cur0 "2026-02-20").1.lookup "2026-02-20"
      = some (createHistorySnapshot cur0 "2026-02-20") ∧
    ((archiveStep (archiveStep [] cur0 "2026-02-20").1 cur0 "2026-02-20").1.map
        Prod.fst).count "2026-02-20" = 1 :=
  c7_archive_idempotent [] cur0 cur0 "2026-02-20" rfl

/-! ### C1: the per-category diff baseline

In `main()`, step 1 writes `data/history/<dateStr>.json` and step 3 then
diffs the current scores against the lexicographically last file of the
history directory — which is the snapshot step 1 just wrote.  The
per-category diff therefore always compares the current store with
itself on a fresh archive run, and `categoryChanges` comes out empty even
when scores moved since the previous month. -/

/-- C1 (failing run): history holds the January snapshot with
elections = 5, the current store has elections = 7, and the monthly run
archives 2026-02-20.  The immediately preceding archived snapshot
(January) differs from the current store on elections (5 vs 7), so the
claim requires a categoryChanges entry for elections — but the generated
template has `categoryChanges = []`, because after step 1 the
lexicographically last history file is the freshly written February
snapshot.  The last conjunct checks that step 1 did write (no skip). -/
theorem c1_diff_baseline_code_bug :
    ((monthlyMain histJan [recJan] cur1 "2026-02-20" "February 2026").2).map
        ChangeRecord.categoryChanges = some [] ∧
    snapJan.scores Cat.elections = 5 ∧
    (cur1.scores Cat.elections).score = 7 ∧
    (monthlyMain histJan [recJan] cur1 "2026-02-20" "February 2026").1.2 = false := by
  exact ⟨by decide, by decide, by decide, by decide⟩

/-! ### C2: the first-ever archive -/

/-- C2 counterexample: on the first-ever archive (empty history, empty
change log) the generated template's `overallChange` is the number 0, not
null. -/
theorem c2_first_archive_counterexample :
    (generateChangesTemplate [] [] cur0 "2025-07-20" "July 2025").map
        ChangeRecord.overallChange = some (some 0) ∧
    (generateChangesTemplate [] [] cur0 "2025-07-20" "July 2025").map
        ChangeRecord.overallChange ≠ some none := by
  have e : (generateChangesTemplate [] [] cur0 "2025-07-20" "July 2025").map
      ChangeRecord.overallChange
      = some (some (round1 (cur0.overallScore - cur0.overallScore))) := rfl
  rw [e, sub_self, round1_zero]
  exact ⟨rfl, by simp⟩

/-- C2 amended: when the change-log collection is empty (in particular on
the first-ever archive), the generated template has `overallChange = 0`
(a number, not null) and `categoryChanges = []`. -/
theorem c2_first_archive_zero_change (hist : HistoryDir) (cur : Current) (d m : String) :
    (generateChangesTemplate hist [] cur d m).map ChangeRecord.overallChange
        = some (some 0) ∧
    (generateChangesTemplate hist [] cur d m).map ChangeRecord.categoryChanges
        = some [] := by
  have e1 : (generateChangesTemplate hist [] cur d m).map ChangeRecord.overallChange
      = some (some (round1 (cur.overallScore - cur.overallScore))) := rfl
  have e2 : (generateChangesTemplate hist [] cur d m).map ChangeRecord.categoryChanges
      = some [] := rfl
  rw [e1, sub_self, round1_zero]
  exact ⟨rfl, e2⟩

/-! ### C3: the baseline of `overallChange` -/

/-- C3 counterexample: the generator takes its overall baseline from the
last change-log entry, not from the immediately preceding archived
snapshot.  With the January snapshot at overall 5, a hand-edited last
change-log entry at overall 6, and a current overall of 5.5, the code
produces `overallChange = -0.5`, while the claim requires
`round1(5.5 - 5) = 0.5`. -/
theorem c3_snapshot_baseline_counterexample :
    (generateChangesTemplate histJan [recDrift] cur2 "2026-02-20" "February 2026").map
        ChangeRecord.overallChange = some (some (-(1 / 2))) ∧
    round1 (cur2.overallScore - snapJan.overallScore) = 1 / 2 ∧
    ((-(1 / 2) : ℚ)) ≠ 1 / 2 := by
  have e : (generateChangesTemplate histJan [recDrift] cur2 "2026-02-20" "February 2026").map
      ChangeRecord.overallChange
      = some (some (round1 (cur2.overallScore - recDrift.overallScore))) := rfl
  have h1 : round1 (cur2.overallScore - recDrift.overallScore) = -(1 / 2) := by
    have hq : cur2.overallScore - recDrift.overallScore = -(1 / 2) := by
      show (11 / 2 : ℚ) - 6 = -(1 / 2)
      norm_num
    rw [hq, round1_eval (-(1 / 2)) (-5) (by norm_num) (by norm_num)]
    norm_num
  have h2 : round1 (cur2.overallScore - snapJan.overallScore) = 1 / 2 := by
    have hq : cur2.overallScore - snapJan.overallScore = 1 / 2 := by
      show (11 / 2 : ℚ) - 5 = 1 / 2
      norm_num
    rw [hq, round1_eval (1 / 2) 5 (by norm_num) (by norm_num)]
    norm_num
  exact ⟨by rw [e, h1], h2, by norm_num⟩

/-- C3 amended: whenever the change-log collection is nonempty (last
entry `p`) and the history directory is readable (its lexicographically
last file resolves to a snapshot), the template's `overallChange` equals
`round1(current.overallScore - p.overallScore)` — the baseline is the
last persisted change-log record; it agrees with the claim exactly when
that record's `overallScore` equals the preceding snapshot's. -/
theorem c3_overallChange_uses_changelog (hist : HistoryDir)
    (changes : List ChangeRecord) (cur : Current) (d m f : String)
    (p : ChangeRecord) (snap : Snapshot)
    (hp : changes.getLast? = some p) (hf : lastSnapshotFile hist = some f)
    (hs : hist.lookup f = some snap) :
    (generateChangesTemplate hist changes cur d m).map ChangeRecord.overallChange
      = some (some (round1 (cur.overallScore - p.overallScore))) := by
  simp only [generateChangesTemplate, getPreviousMonthData, hp, hf, hs]
  rfl

/-- C3 witness: the amended statement applied to the concrete drifted
state. -/
theorem c3_overallChange_uses_changelog_witness :
    (generateChangesTemplate histJan [recDrift] cur2 "2026-02-20" "Feb 2026").map
        ChangeRecord.overallChange
      = some (some (round1 (cur2.overallScore - recDrift.overallScore))) :=
  c3_overallChange_uses_changelog histJan [recDrift] cur2 "2026-02-20" "Feb 2026"
    "2026-01-20" recDrift snapJan rfl rfl rfl

end Tracker
